import Mathlib

/-!
Verification of the MongoDB-Auth refresh-token lifecycle core.

The development shallowly embeds `src/auth/token_manager.py`
(`RefreshTokenManager`) and `src/auth/authentication.py` (`Authentication`)
over an explicit database state.  MongoDB collections are lists of records
in insertion (natural) order; `find_one` is `List.find?`, `update_one`
modifies the first matching document, `update_many`/`delete_many` act on all
matches and report modified/deleted counts with MongoDB's semantics
(`modified_count` counts documents actually changed by the update).
Randomness (token generation, bcrypt salts) is threaded in as explicit
arguments, and `datetime.utcnow()` as an explicit `now : Int` timestamp in
seconds.  A `failing` flag on the state models the underlying store raising
on every operation, matching the `try/except` structure of the source.
-/

/-- Timestamps in seconds, standing for Python `datetime` values. -/
abbrev Timestamp := Int

/-- `timedelta(days=30)` in seconds, the refresh-token lifetime. -/
def thirtyDaysSecs : Timestamp := 30 * 86400

/-- `timedelta(days=7)` in seconds, the retention window used by cleanup. -/
def sevenDaysSecs : Timestamp := 7 * 86400

/-- `timedelta(hours=1)` in seconds, the reset-token lifetime. -/
def oneHourSecs : Timestamp := 3600

/-- The `session_info` sub-document snapshotted at token creation
(`token_manager.py` lines 60-67).  The `browser`, `os` and `device` entries
are display strings computed purely from `user_agent` by the external
user-agents parser; no operation of the manager reads them, so they are
summarized here by the `user_agent` field they are derived from. -/
structure SessionInfo where
  ip_address : Option String
  user_agent : String
  location : String
deriving Repr, DecidableEq

/-- The `request_info` dict supplied by the request-context extractor:
`.get('ip_address')`, `.get('user_agent', '')`, `.get('location', 'Unknown')`. -/
structure RequestInfo where
  ip_address : Option String
  user_agent : String
  location : Option String
deriving Repr, DecidableEq

/-- A document of the `refresh_tokens` collection (`token_manager.py`
lines 51-72).  `oid` stands for the MongoDB `_id`.  The optional
rotation/revocation fields are absent (`none`) until the record is
deactivated. -/
structure TokenRecord where
  oid : Nat
  token : String
  user_id : String
  expires_at : Timestamp
  created_at : Timestamp
  last_used : Timestamp
  is_active : Bool
  session_info : SessionInfo
  usage_count : Nat
  last_ip : Option String
  rotated_at : Option Timestamp := none
  rotation_reason : Option String := none
  revoked_at : Option Timestamp := none
  revocation_reason : Option String := none
deriving Repr, DecidableEq

/-- A document of the `usuarios` collection (`authentication.py` lines 63-68,
plus the `updated_at` field stamped by `reset_password`). -/
structure UserRecord where
  oid : Nat
  email : String
  password : String
  created_at : Timestamp
  is_active : Bool
  updated_at : Option Timestamp := none
deriving Repr, DecidableEq

/-- A document of the `reset_tokens` collection (`authentication.py`
lines 134-141, plus the `used_at` field stamped on redemption).
`user_id` holds the owning user's `_id`. -/
structure ResetTokenRecord where
  oid : Nat
  user_id : Nat
  email : String
  token : String
  expires_at : Timestamp
  used : Bool
  created_at : Timestamp
  used_at : Option Timestamp := none
deriving Repr, DecidableEq

/-- The database state: the three collections, a counter supplying fresh
`_id`s, and a flag modelling the store being unreachable (every operation
raises while it is set). -/
structure DB where
  refresh_tokens : List TokenRecord
  usuarios : List UserRecord
  reset_tokens : List ResetTokenRecord
  next_oid : Nat
  failing : Bool
deriving Repr, DecidableEq

/-- MongoDB `update_one`: rewrite the first document matching `p` with `f`,
returning the new collection and the `modified_count` (1 only when the
update actually changed the document). -/
def updateOne {α : Type} [DecidableEq α] (p : α → Bool) (f : α → α) :
    List α → List α × Nat
  | [] => ([], 0)
  | r :: rest =>
    if p r then (f r :: rest, if f r = r then 0 else 1)
    else
      let res := updateOne p f rest
      (r :: res.1, res.2)

/-- MongoDB `update_many`: rewrite every document matching `p` with `f`;
`modified_count` counts the documents the update actually changed. -/
def updateMany {α : Type} [DecidableEq α] (p : α → Bool) (f : α → α)
    (recs : List α) : List α × Nat :=
  (recs.map fun r => if p r then f r else r,
   recs.countP fun r => p r && !decide (f r = r))

/-- MongoDB `delete_many`: remove every document matching `p`, returning the
remaining collection and the `deleted_count`. -/
def deleteMany {α : Type} (p : α → Bool) (recs : List α) : List α × Nat :=
  (recs.filter fun r => !(p r), recs.countP p)

/-- The filter of the `find_one` at `token_manager.py` lines 88-92:
`token` equal, `is_active` true, `expires_at` strictly in the future. -/
def matchesActiveQuery (now : Timestamp) (token : String) (r : TokenRecord) : Bool :=
  r.token == token && r.is_active && decide (now < r.expires_at)

/-- The `find_one` lookup underlying validation: first record of the
collection matching `matchesActiveQuery`. -/
def findActiveRecord (now : Timestamp) (token : String)
    (recs : List TokenRecord) : Option TokenRecord :=
  recs.find? (matchesActiveQuery now token)

/-- The fresh record built by `create_refresh_token`
(`token_manager.py` lines 44-72). -/
def mkTokenRecord (now : Timestamp) (oid : Nat) (token user_id : String)
    (req : RequestInfo) : TokenRecord :=
  { oid := oid
    token := token
    user_id := user_id
    expires_at := now + thirtyDaysSecs
    created_at := now
    last_used := now
    is_active := true
    session_info :=
      { ip_address := req.ip_address
        user_agent := req.user_agent
        location := req.location.getD "Unknown" }
    usage_count := 0
    last_ip := req.ip_address }

/-- `RefreshTokenManager.create_refresh_token`: inserts a fresh record.
The unique index on `token` makes the insert raise `DuplicateKey` when the
generated value already exists; both that and a store failure surface as the
re-raised `Exception("Failed to create refresh token")`. -/
def create_refresh_token (now : Timestamp) (newToken : String)
    (user_id : String) (req : RequestInfo) (db : DB) :
    Except String (String × DB) :=
  if db.failing then .error "Failed to create refresh token"
  else if db.refresh_tokens.any (fun r => r.token == newToken) then
    .error "Failed to create refresh token"
  else
    .ok (newToken,
      { db with
          refresh_tokens :=
            db.refresh_tokens ++ [mkTokenRecord now db.next_oid newToken user_id req]
          next_oid := db.next_oid + 1 })

/-- The `$set` applied to the old record at `token_manager.py`
lines 106-115: deactivate and stamp rotation metadata. -/
def deactivateForRotation (now : Timestamp) (r : TokenRecord) : TokenRecord :=
  { r with
      is_active := false
      rotated_at := some now
      rotation_reason := some "normal_rotation" }

/-- The `$set` applied by `revoke_token` / `revoke_all_user_tokens`:
deactivate and stamp revocation metadata. -/
def deactivateForRevocation (now : Timestamp) (reason : String)
    (r : TokenRecord) : TokenRecord :=
  { r with
      is_active := false
      revoked_at := some now
      revocation_reason := some reason }

/-- Result of `validate_and_rotate_token`: either the success dict
(valid, user_id, new_token, session_info) or the failure dict
(valid False plus an error message). -/
inductive RotateResult where
  | ok (user_id new_token : String) (session_info : SessionInfo)
  | invalid (error : String)
deriving Repr, DecidableEq

/-- `RefreshTokenManager.validate_and_rotate_token` (lines 84-130).
Looks up the active record, deactivates it, then issues a replacement; an
IP change against the stored `session_info` is only logged.  Any exception
(store failure, or the re-raised insert failure after the old record was
already deactivated) is caught and mapped to the generic
`"Token validation failed"` dict. -/
def validate_and_rotate_token (now : Timestamp) (newToken : String)
    (token : String) (req : RequestInfo) (db : DB) : RotateResult × DB :=
  if db.failing then (.invalid "Token validation failed", db)
  else
    match findActiveRecord now token db.refresh_tokens with
    | none => (.invalid "Invalid or expired token", db)
    | some td =>
      let db1 :=
        { db with
            refresh_tokens :=
              (updateOne (fun r => r.oid == td.oid) (deactivateForRotation now)
                db.refresh_tokens).1 }
      match create_refresh_token now newToken td.user_id req db1 with
      | .error _ => (.invalid "Token validation failed", db1)
      | .ok res => (.ok td.user_id res.1 td.session_info, res.2)

/-- `RefreshTokenManager.revoke_token` (lines 132-153): deactivate the first
active record with the given token; `True` iff a document was modified.  A
store failure is caught and also yields `False`. -/
def revoke_token (now : Timestamp) (token reason : String) (db : DB) :
    Bool × DB :=
  if db.failing then (false, db)
  else
    let res := updateOne (fun r => r.token == token && r.is_active)
      (deactivateForRevocation now reason) db.refresh_tokens
    (decide (0 < res.2), { db with refresh_tokens := res.1 })

/-- `RefreshTokenManager.revoke_all_user_tokens` (lines 155-177): deactivate
every active record of the user, returning the modified count; a store
failure is caught and yields 0. -/
def revoke_all_user_tokens (now : Timestamp) (user_id reason : String)
    (db : DB) : Nat × DB :=
  if db.failing then (0, db)
  else
    let res := updateMany (fun r => r.user_id == user_id && r.is_active)
      (deactivateForRevocation now reason) db.refresh_tokens
    (res.2, { db with refresh_tokens := res.1 })

/-- The projection document passed to `find` by `get_user_sessions`
(lines 184-191): exclude `token`, include the session fields and `_id`. -/
def sessionsProjection : List (String × Nat) :=
  [("token", 0), ("session_info", 1), ("created_at", 1),
   ("last_used", 1), ("usage_count", 1), ("_id", 1)]

/-- MongoDB's projection validity rule: a projection may not mix inclusion
and exclusion, except on the `_id` field; a mixed projection makes the
query raise `OperationFailure`. -/
def projectionWellFormed (proj : List (String × Nat)) : Bool :=
  let rest := proj.filter fun kv => !(kv.1 == "_id")
  rest.all (fun kv => kv.2 == 0) || rest.all (fun kv => !(kv.2 == 0))

/-- The shape of a projected session document as intended by
`get_user_sessions`: everything but the token value. -/
structure SessionView where
  oid : Nat
  session_info : SessionInfo
  created_at : Timestamp
  last_used : Timestamp
  usage_count : Nat
deriving Repr, DecidableEq

/-- Insert into a list kept in descending key order. -/
def insertDescBy {α : Type} (key : α → Timestamp) (x : α) :
    List α → List α
  | [] => [x]
  | y :: ys => if key y < key x then x :: y :: ys else y :: insertDescBy key x ys

/-- Sort a list into descending key order (the cursor's
`.sort("last_used", -1)`). -/
def sortDescBy {α : Type} (key : α → Timestamp) : List α → List α
  | [] => []
  | x :: xs => insertDescBy key x (sortDescBy key xs)

/-- `RefreshTokenManager.get_user_sessions` (lines 179-198): query the
user's active records with `sessionsProjection`, sorted by `last_used`
descending.  Because the projection mixes exclusion (`token: 0`) with
inclusions, the server raises `OperationFailure` when the cursor is
consumed; the `except` branch returns `[]`.  A store failure likewise
yields `[]`. -/
def get_user_sessions (user_id : String) (db : DB) : List SessionView :=
  if db.failing then []
  else if projectionWellFormed sessionsProjection then
    sortDescBy (fun v => v.last_used)
      ((db.refresh_tokens.filter fun r => r.user_id == user_id && r.is_active).map
        fun r =>
          { oid := r.oid
            session_info := r.session_info
            created_at := r.created_at
            last_used := r.last_used
            usage_count := r.usage_count })
  else []

/-- The filter of cleanup's second `delete_many` (lines 210-213): inactive
records whose `revoked_at` field is present and before the cutoff (a
`$lt` comparison never matches a document missing the field, so records
deactivated by rotation — which carry `rotated_at` instead — never match). -/
def oldRevokedQuery (cutoff : Timestamp) (r : TokenRecord) : Bool :=
  !r.is_active &&
    (match r.revoked_at with
     | some t => decide (t < cutoff)
     | none => false)

/-- `RefreshTokenManager.cleanup_expired_tokens` (lines 200-224): delete
records with `expires_at` in the past, then inactive records revoked more
than seven days ago; returns the total deleted count.  A store failure is
caught and yields 0. -/
def cleanup_expired_tokens (now : Timestamp) (db : DB) : Nat × DB :=
  if db.failing then (0, db)
  else
    let expired := deleteMany (fun r => decide (r.expires_at < now)) db.refresh_tokens
    let revoked := deleteMany (oldRevokedQuery (now - sevenDaysSecs)) expired.1
    (expired.2 + revoked.2, { db with refresh_tokens := revoked.1 })

/-- Result dict of `Authentication.request_password_reset`: success flag,
message, and — on the existing-user path — the reset token itself
(the source notes it would be sent by email in production). -/
structure ResetRequestResult where
  success : Bool
  message : String
  reset_token : Option String
deriving Repr, DecidableEq

/-- The generic response line used whether or not the account exists. -/
def genericResetMessage : String :=
  "If an account with that email exists, a reset link has been sent"

/-- The fresh reset-token document built at `authentication.py`
lines 134-141. -/
def mkResetTokenRecord (now : Timestamp) (oid user_oid : Nat)
    (email tok : String) : ResetTokenRecord :=
  { oid := oid
    user_id := user_oid
    email := email
    token := tok
    expires_at := now + oneHourSecs
    used := false
    created_at := now }

/-- `Authentication.request_password_reset` (lines 113-161): look the user
up by email; if absent, return the generic success dict unchanged.  If
present, delete the user's prior reset tokens, insert a fresh one and
return the generic success dict carrying the new token.  A store failure
is caught and mapped to a failure dict. -/
def request_password_reset (now : Timestamp) (newResetToken : String)
    (email : String) (db : DB) : ResetRequestResult × DB :=
  if db.failing then
    ({ success := false, message := "Password reset request failed",
       reset_token := none }, db)
  else
    match db.usuarios.find? (fun u => u.email == email) with
    | none =>
      ({ success := true, message := genericResetMessage, reset_token := none }, db)
    | some u =>
      let remaining := db.reset_tokens.filter fun t => !(t.user_id == u.oid)
      ({ success := true, message := genericResetMessage,
         reset_token := some newResetToken },
       { db with
           reset_tokens :=
             remaining ++ [mkResetTokenRecord now db.next_oid u.oid email newResetToken]
           next_oid := db.next_oid + 1 })

/-- Result dict of `Authentication.reset_password`. -/
structure ResetResult where
  success : Bool
  message : String
deriving Repr, DecidableEq

/-- `Authentication.reset_password` (lines 163-215).  `newHash` stands for
`hash_password(new_password)` (bcrypt with a fresh random salt);
`withTokenManager` records whether the optional `token_manager` argument
was supplied (the route passes it).  Finds an unused, unexpired token;
updates the user's password; if a document was modified, marks the token
used and revokes all of the user's refresh tokens. -/
def reset_password (now : Timestamp) (newHash : String) (token : String)
    (withTokenManager : Bool) (db : DB) : ResetResult × DB :=
  if db.failing then
    ({ success := false, message := "Password reset failed" }, db)
  else
    match db.reset_tokens.find?
        (fun t => t.token == token && !t.used && decide (now < t.expires_at)) with
    | none => ({ success := false, message := "Invalid or expired reset token" }, db)
    | some rd =>
      let userUpd := updateOne (fun u => u.oid == rd.user_id)
        (fun u => { u with password := newHash, updated_at := some now }) db.usuarios
      if 0 < userUpd.2 then
        let tokUpd := updateOne (fun t => t.oid == rd.oid)
          (fun t => { t with used := true, used_at := some now }) db.reset_tokens
        let db1 := { db with usuarios := userUpd.1, reset_tokens := tokUpd.1 }
        let db2 :=
          if withTokenManager then
            (revoke_all_user_tokens now (toString rd.user_id) "password_reset" db1).2
          else db1
        ({ success := true, message := "Password reset successful" }, db2)
      else
        ({ success := false, message := "Failed to update password" },
         { db with usuarios := userUpd.1 })

/-! Infrastructure lemmas about the MongoDB primitives. -/

/-- Characterization of the validation filter. -/
theorem matchesActiveQuery_iff (now : Timestamp) (tok : String) (r : TokenRecord) :
    matchesActiveQuery now tok r = true ↔
      r.token = tok ∧ r.is_active = true ∧ now < r.expires_at := by
  simp [matchesActiveQuery, and_assoc]

/-- If no document matches, `update_one` is the identity with modified
count 0. -/
theorem updateOne_nomatch {α : Type} [DecidableEq α] (p : α → Bool) (f : α → α) :
    (l : List α) → (∀ x ∈ l, p x = false) → updateOne p f l = (l, 0)
  | [], _ => rfl
  | r :: rest, h => by
    have hr : p r = false := h r (List.mem_cons_self r rest)
    have ih := updateOne_nomatch p f rest fun x hx => h x (List.mem_cons_of_mem r hx)
    simp [updateOne, hr, ih]

/-- A map that touches nothing is the identity. -/
theorem map_ite_id {α : Type} (p : α → Bool) (f : α → α) :
    (l : List α) → (∀ x ∈ l, p x = false) →
    (l.map fun r => if p r then f r else r) = l
  | [], _ => rfl
  | r :: rest, h => by
    have hr : p r = false := h r (List.mem_cons_self r rest)
    have ih := map_ite_id p f rest fun x hx => h x (List.mem_cons_of_mem r hx)
    simp [hr, ih]

/-- When at most one position can match, `update_one` coincides with the
pointwise map. -/
theorem updateOne_fst_eq_map {α : Type} [DecidableEq α] (p : α → Bool) (f : α → α) :
    (l : List α) → l.Pairwise (fun a b => ¬(p a = true ∧ p b = true)) →
    (updateOne p f l).1 = l.map fun r => if p r then f r else r
  | [], _ => rfl
  | r :: rest, h => by
    rcases List.pairwise_cons.mp h with ⟨hhead, htail⟩
    cases hp : p r
    · simp [updateOne, hp, updateOne_fst_eq_map p f rest htail]
    · have hrest : ∀ x ∈ rest, p x = false := by
        intro x hx
        cases hq : p x
        · rfl
        · exact absurd ⟨hp, hq⟩ (hhead x hx)
      simp [updateOne, hp, map_ite_id p f rest hrest]

/-- `update_one` reports a positive modified count when a matching document
exists and the update changes it (and only one position can match). -/
theorem updateOne_snd_pos {α : Type} [DecidableEq α] (p : α → Bool) (f : α → α) :
    (l : List α) → (r : α) → r ∈ l → p r = true → f r ≠ r →
    l.Pairwise (fun a b => ¬(p a = true ∧ p b = true)) → 0 < (updateOne p f l).2
  | x :: rest, r, hr, hpr, hne, hpair => by
    rcases List.pairwise_cons.mp hpair with ⟨hhead, htail⟩
    rcases List.mem_cons.mp hr with rfl | hmem
    · simp [updateOne, hpr, hne]
    · cases hx : p x
      · have := updateOne_snd_pos p f rest r hmem hpr hne htail
        simpa [updateOne, hx] using this
      · exact absurd ⟨hx, hpr⟩ (hhead r hmem)

/-- `update_one` preserves any field the update preserves. -/
theorem updateOne_map_eq {α β : Type} [DecidableEq α] (p : α → Bool) (f : α → α)
    (g : α → β) (hg : ∀ x, g (f x) = g x) :
    (l : List α) → (updateOne p f l).1.map g = l.map g
  | [] => rfl
  | r :: rest => by
    cases hp : p r
    · simp [updateOne, hp, updateOne_map_eq p f g hg rest]
    · simp [updateOne, hp, hg]

/-- Members of an `update_one` result are either untouched originals or the
image of an original. -/
theorem mem_updateOne_fst {α : Type} [DecidableEq α] (p : α → Bool) (f : α → α) :
    (l : List α) → (r' : α) → r' ∈ (updateOne p f l).1 →
    r' ∈ l ∨ ∃ r ∈ l, p r = true ∧ r' = f r
  | x :: rest, r', h => by
    cases hp : p x
    · simp only [updateOne, hp, cond_false] at h
      rcases List.mem_cons.mp h with rfl | h'
      · exact Or.inl (List.mem_cons_self _ _)
      · rcases mem_updateOne_fst p f rest r' h' with hm | ⟨r, hr, hpr, he⟩
        · exact Or.inl (List.mem_cons_of_mem _ hm)
        · exact Or.inr ⟨r, List.mem_cons_of_mem _ hr, hpr, he⟩
    · simp only [updateOne, hp, cond_true] at h
      rcases List.mem_cons.mp h with rfl | h'
      · exact Or.inr ⟨x, List.mem_cons_self _ _, hp, rfl⟩
      · exact Or.inl (List.mem_cons_of_mem _ h')

/-- From key-uniqueness, no two distinct positions can satisfy a predicate
that pins the key to a single value. -/
theorem pairwise_not_both {α β : Type} (key : α → β) (k : β) (p : α → Bool)
    (hp : ∀ x, p x = true → key x = k) (l : List α)
    (h : (l.map key).Nodup) :
    l.Pairwise fun a b => ¬(p a = true ∧ p b = true) := by
  have h' : l.Pairwise fun a b => key a ≠ key b := List.pairwise_map.mp h
  exact h'.imp fun hne hk => hne (by rw [hp _ hk.1, hp _ hk.2])

/-- `find?` skips a prefix with no matches. -/
theorem find?_append_none {α : Type} (p : α → Bool) :
    (l₁ l₂ : List α) → l₁.find? p = none → (l₁ ++ l₂).find? p = l₂.find? p
  | [], _, _ => rfl
  | x :: rest, l₂, h => by
    cases hp : p x
    · rw [List.cons_append]
      simp only [List.find?_cons, hp] at h ⊢
      exact find?_append_none p rest l₂ h
    · simp [List.find?_cons, hp] at h

/-! Sample states shared by several witnesses. -/

/-- A plain active refresh-token record. -/
def sampleActiveRecord : TokenRecord :=
  { oid := 1
    token := "T1"
    user_id := "u1"
    expires_at := 100
    created_at := 0
    last_used := 5
    is_active := true
    session_info := { ip_address := some "1.1.1.1", user_agent := "UA", location := "X" }
    usage_count := 0
    last_ip := some "1.1.1.1" }

/-- A healthy database holding one active record. -/
def sampleDB : DB :=
  { refresh_tokens := [sampleActiveRecord]
    usuarios := []
    reset_tokens := []
    next_oid := 2
    failing := false }

/-- A request context presenting from a second address. -/
def sampleReq : RequestInfo :=
  { ip_address := some "2.2.2.2", user_agent := "UA2", location := none }

/-- C4: the lookup underlying `validate_and_rotate_token` matches a record
iff it carries the token, `is_active` is true and `expires_at` is strictly
in the future; in particular an expired record never validates regardless
of `is_active`, and whenever the lookup finds nothing (absent, expired or
inactive token alike) the caller gets the single generic
`"Invalid or expired token"` rejection and an unchanged store. -/
theorem validation_semantics (db : DB) (hfail : db.failing = false)
    (now : Timestamp) (t fresh : String) (req : RequestInfo) :
    (∀ r, findActiveRecord now t db.refresh_tokens = some r →
        r.token = t ∧ r.is_active = true ∧ now < r.expires_at) ∧
    (findActiveRecord now t db.refresh_tokens = none ↔
        ∀ r ∈ db.refresh_tokens, ¬(r.token = t ∧ r.is_active = true ∧ now < r.expires_at)) ∧
    (findActiveRecord now t db.refresh_tokens = none →
        validate_and_rotate_token now fresh t req db =
          (RotateResult.invalid "Invalid or expired token", db)) := by
  refine ⟨?_, ?_, ?_⟩
  · intro r hr
    exact (matchesActiveQuery_iff now t r).mp (List.find?_some hr)
  · rw [findActiveRecord, List.find?_eq_none]
    constructor
    · intro h r hr hprop
      exact h r hr ((matchesActiveQuery_iff now t r).mpr hprop)
    · intro h r hr hq
      exact h r hr ((matchesActiveQuery_iff now t r).mp hq)
  · intro hnone
    simp [validate_and_rotate_token, hfail, hnone]

/-- Witness for C4 at a concrete store and time. -/
theorem validation_semantics_witness :
    sampleDB.failing = false ∧
    ((∀ r, findActiveRecord 10 "T1" sampleDB.refresh_tokens = some r →
        r.token = "T1" ∧ r.is_active = true ∧ (10 : Timestamp) < r.expires_at) ∧
     (findActiveRecord 10 "T1" sampleDB.refresh_tokens = none ↔
        ∀ r ∈ sampleDB.refresh_tokens,
          ¬(r.token = "T1" ∧ r.is_active = true ∧ (10 : Timestamp) < r.expires_at)) ∧
     (findActiveRecord 10 "T1" sampleDB.refresh_tokens = none →
        validate_and_rotate_token 10 "F" "T1" sampleReq sampleDB =
          (RotateResult.invalid "Invalid or expired token", sampleDB))) :=
  ⟨rfl, validation_semantics sampleDB rfl 10 "T1" "F" sampleReq⟩

/-- C2 (amended): cleanup deletes exactly the records whose `expires_at` is
in the past plus the inactive records whose `revoked_at` stamp is older than
the 7-day cutoff, and returns their total count; records deactivated by
rotation carry `rotated_at` rather than `revoked_at`, so the retention purge
never removes them. -/
theorem cleanup_deletes_expired_and_old_revoked (db : DB)
    (hfail : db.failing = false) (now : Timestamp) :
    cleanup_expired_tokens now db =
      (db.refresh_tokens.countP (fun r => decide (r.expires_at < now)) +
        db.refresh_tokens.countP
          (fun r => oldRevokedQuery (now - sevenDaysSecs) r && !decide (r.expires_at < now)),
       { db with
           refresh_tokens := db.refresh_tokens.filter
             (fun r => !oldRevokedQuery (now - sevenDaysSecs) r && !decide (r.expires_at < now)) }) := by
  simp [cleanup_expired_tokens, hfail, deleteMany, List.countP_filter, List.filter_filter]

/-- An expired record, for the cleanup scenarios. -/
def expiredRecord : TokenRecord :=
  { sampleActiveRecord with oid := 11, token := "E", expires_at := 1000000 }

/-- A record revoked recently (inside the 7-day retention window). -/
def recentRevokedRecord : TokenRecord :=
  { sampleActiveRecord with
      oid := 12, token := "R1", expires_at := 9000000,
      is_active := false, revoked_at := some 1900000 }

/-- A record revoked beyond the 7-day retention window. -/
def oldRevokedRecord : TokenRecord :=
  { sampleActiveRecord with
      oid := 13, token := "R2", expires_at := 9000000,
      is_active := false, revoked_at := some 1000000 }

/-- A store holding one expired, one recently-revoked and one old-revoked
record. -/
def cleanupSampleDB : DB :=
  { refresh_tokens := [expiredRecord, recentRevokedRecord, oldRevokedRecord]
    usuarios := [], reset_tokens := [], next_oid := 14, failing := false }

/-- Witness for C2's amended theorem on a concrete store: the expired and
the old-revoked record are purged (count 2), the recently revoked record is
kept. -/
theorem cleanup_deletes_expired_and_old_revoked_witness :
    cleanupSampleDB.failing = false ∧
    cleanup_expired_tokens 2000000 cleanupSampleDB =
      (2, { cleanupSampleDB with refresh_tokens := [recentRevokedRecord] }) := by
  constructor
  · rfl
  · rw [cleanup_deletes_expired_and_old_revoked cleanupSampleDB rfl 2000000]
    decide

/-- A record deactivated by rotation more than seven days ago and not yet
expired: it carries `rotated_at` but no `revoked_at`. -/
def staleRotatedRecord : TokenRecord :=
  { oid := 1
    token := "T1"
    user_id := "u1"
    expires_at := 3000000
    created_at := 0
    last_used := 1000000
    is_active := false
    session_info := { ip_address := some "1.1.1.1", user_agent := "UA", location := "X" }
    usage_count := 0
    last_ip := some "1.1.1.1"
    rotated_at := some 1000000
    rotation_reason := some "normal_rotation" }

/-- Counterexample to C2 as stated: a record deactivated by rotation more
than seven days ago (inactive, `rotated_at` a million seconds in, cutoff at
`2000000 - 604800`) is left in place and counted as 0, where the claim
requires it to be among the K deleted old-inactive records (count 1). -/
theorem cleanup_spares_stale_rotated_record :
    cleanup_expired_tokens 2000000
      { refresh_tokens := [staleRotatedRecord], usuarios := [], reset_tokens := [],
        next_oid := 2, failing := false } =
      (0, { refresh_tokens := [staleRotatedRecord], usuarios := [], reset_tokens := [],
            next_oid := 2, failing := false }) ∧
    staleRotatedRecord.is_active = false ∧
    staleRotatedRecord.rotated_at = some 1000000 ∧
    staleRotatedRecord.revoked_at = none ∧
    (1000000 : Timestamp) < 2000000 - sevenDaysSecs ∧
    (2000000 : Timestamp) < staleRotatedRecord.expires_at := by
  refine ⟨by decide, rfl, rfl, rfl, by decide, by decide⟩

/-- C3 (amended): with the store raising, `validate_and_rotate_token`
returns the distinct `"Token validation failed"` dict, which differs from
the `"Invalid or expired token"` rejection used for absent/expired/inactive
tokens — but `revoke_token` swallows the store error into the same `False`
it returns for an unknown or already-inactive token. -/
theorem store_failure_signaling (db : DB) (hfail : db.failing = true)
    (now : Timestamp) (fresh t reason : String) (req : RequestInfo) :
    (validate_and_rotate_token now fresh t req db).1 =
      RotateResult.invalid "Token validation failed" ∧
    RotateResult.invalid "Token validation failed" ≠
      RotateResult.invalid "Invalid or expired token" ∧
    (revoke_token now t reason db).1 = false := by
  refine ⟨by simp [validate_and_rotate_token, hfail], by decide,
    by simp [revoke_token, hfail]⟩

/-- Witness for C3's amended theorem on a concrete failing store. -/
theorem store_failure_signaling_witness :
    ({ refresh_tokens := [sampleActiveRecord], usuarios := [], reset_tokens := [],
       next_oid := 2, failing := true } : DB).failing = true ∧
    ((validate_and_rotate_token 10 "F" "T1" sampleReq
        { refresh_tokens := [sampleActiveRecord], usuarios := [], reset_tokens := [],
          next_oid := 2, failing := true }).1 =
      RotateResult.invalid "Token validation failed" ∧
    RotateResult.invalid "Token validation failed" ≠
      RotateResult.invalid "Invalid or expired token" ∧
    (revoke_token 10 "T1" "manual_revocation"
        { refresh_tokens := [sampleActiveRecord], usuarios := [], reset_tokens := [],
          next_oid := 2, failing := true }).1 = false) :=
  ⟨rfl, store_failure_signaling _ rfl 10 "F" "T1" "manual_revocation" sampleReq⟩

/-- Counterexample to C3 as stated: a `revoke_token` call during which the
store raises returns exactly the same result (`false`) as a healthy call on
an absent token, so store unavailability is not distinguishable from token
invalidity at this call boundary. -/
theorem revoke_store_failure_indistinguishable :
    (revoke_token 0 "T1" "manual_revocation"
        { refresh_tokens := [], usuarios := [], reset_tokens := [], next_oid := 0,
          failing := true }).1 = false ∧
    (revoke_token 0 "T1" "manual_revocation"
        { refresh_tokens := [], usuarios := [], reset_tokens := [], next_oid := 0,
          failing := false }).1 = false := by
  decide

/-- C5: `get_user_sessions` never returns the user's sessions.  Its
projection document mixes the exclusion of `token` with inclusions, which
MongoDB rejects (`OperationFailure`), so the `except` branch always returns
the empty list — here shown on a store holding an active session for the
queried user. -/
theorem get_user_sessions_always_empty :
    get_user_sessions "u1" sampleDB = [] ∧
    sampleActiveRecord ∈ sampleDB.refresh_tokens ∧
    sampleActiveRecord.user_id = "u1" ∧
    sampleActiveRecord.is_active = true ∧
    projectionWellFormed sessionsProjection = false := by
  decide

/-- A registered user for the password-reset scenarios. -/
def resetUser : UserRecord :=
  { oid := 7, email := "a@b.c", password := "H0", created_at := 0, is_active := true }

/-- Counterexample to C9 as stated: two `request_password_reset` calls whose
only difference is whether a user with the email exists return different
results — the existing-user run additionally carries the fresh reset token
in the response dict. -/
theorem reset_request_response_differs :
    (request_password_reset 0 "RT" "a@b.c"
        { refresh_tokens := [], usuarios := [resetUser], reset_tokens := [],
          next_oid := 8, failing := false }).1 ≠
    (request_password_reset 0 "RT" "a@b.c"
        { refresh_tokens := [], usuarios := [], reset_tokens := [],
          next_oid := 8, failing := false }).1 := by
  decide

/-- C9 (amended): the success flag and message of `request_password_reset`
are the same generic line whether or not the email exists, but the response
also carries the reset token exactly when a user with the email exists, so
the full caller-visible outputs of the two runs are not equal. -/
theorem reset_request_generic_message (db : DB) (hfail : db.failing = false)
    (now : Timestamp) (tok email : String) :
    ((request_password_reset now tok email db).1).success = true ∧
    ((request_password_reset now tok email db).1).message = genericResetMessage ∧
    ((request_password_reset now tok email db).1).reset_token =
      (db.usuarios.find? (fun u => u.email == email)).map (fun _ => tok) := by
  cases hfind : db.usuarios.find? (fun u => u.email == email) <;>
    simp [request_password_reset, hfail, hfind]

/-- Witness for C9's amended theorem on a store containing the user. -/
theorem reset_request_generic_message_witness :
    ({ refresh_tokens := [], usuarios := [resetUser], reset_tokens := [],
       next_oid := 8, failing := false } : DB).failing = false ∧
    (((request_password_reset 0 "RT" "a@b.c"
        { refresh_tokens := [], usuarios := [resetUser], reset_tokens := [],
          next_oid := 8, failing := false }).1).success = true ∧
     ((request_password_reset 0 "RT" "a@b.c"
        { refresh_tokens := [], usuarios := [resetUser], reset_tokens := [],
          next_oid := 8, failing := false }).1).message = genericResetMessage ∧
     ((request_password_reset 0 "RT" "a@b.c"
        { refresh_tokens := [], usuarios := [resetUser], reset_tokens := [],
          next_oid := 8, failing := false }).1).reset_token =
       (({ refresh_tokens := [], usuarios := [resetUser], reset_tokens := [],
           next_oid := 8, failing := false } : DB).usuarios.find?
          (fun u => u.email == "a@b.c")).map (fun _ => "RT")) :=
  ⟨rfl, reset_request_generic_message _ rfl 0 "RT" "a@b.c"⟩

/-- `find?` returns a designated element when it is the only match. -/
theorem find?_eq_of_mem_unique {α : Type} (p : α → Bool) (a : α) :
    (l : List α) → a ∈ l → p a = true → (∀ x ∈ l, p x = true → x = a) →
    l.find? p = some a
  | x :: rest, ha, hpa, huniq => by
    cases hx : p x
    · have hxa : x ≠ a := fun he => by rw [he, hpa] at hx; cases hx
      have ha' : a ∈ rest := by
        rcases List.mem_cons.mp ha with rfl | h'
        · exact absurd rfl hxa
        · exact h'
      have huniq' : ∀ y ∈ rest, p y = true → y = a := fun y hy =>
        huniq y (List.mem_cons_of_mem x hy)
      simp only [List.find?_cons, hx]
      exact find?_eq_of_mem_unique p a rest ha' hpa huniq'
    · have hxa : x = a := huniq x (List.mem_cons_self x rest) hx
      subst hxa
      simp [List.find?_cons, hx]

/-- Anatomy of a successful `validate_and_rotate_token` call: the store was
healthy, a record matched the active query, it was deactivated in place via
its `_id`, and a fresh record whose token collides with nothing was
appended. -/
theorem rotate_success_spec (db : DB) (now : Timestamp)
    (fresh T uid ntok : String) (req : RequestInfo) (si : SessionInfo) (db1 : DB)
    (h : validate_and_rotate_token now fresh T req db =
      (RotateResult.ok uid ntok si, db1)) :
    db.failing = false ∧ ntok = fresh ∧
    ∃ td, findActiveRecord now T db.refresh_tokens = some td ∧
      uid = td.user_id ∧ si = td.session_info ∧
      (∀ x ∈ (updateOne (fun r => r.oid == td.oid) (deactivateForRotation now)
          db.refresh_tokens).1, x.token ≠ fresh) ∧
      db1 = { db with
        refresh_tokens :=
          (updateOne (fun r => r.oid == td.oid) (deactivateForRotation now)
            db.refresh_tokens).1 ++
          [mkTokenRecord now db.next_oid fresh td.user_id req]
        next_oid := db.next_oid + 1 } := by
  by_cases hfail : db.failing = true
  · simp [validate_and_rotate_token, hfail] at h
  · have hfail' : db.failing = false := by simpa using hfail
    rcases hfind : findActiveRecord now T db.refresh_tokens with _ | td
    · simp [validate_and_rotate_token, hfail', hfind] at h
    · rcases hany : (updateOne (fun r => r.oid == td.oid) (deactivateForRotation now)
          db.refresh_tokens).1.any (fun r => r.token == fresh) with _ | _
      · simp only [validate_and_rotate_token, hfail', hfind, Bool.false_eq_true,
          if_false, create_refresh_token, hany] at h
        refine ⟨hfail', ?_, td, rfl, ?_, ?_, ?_, ?_⟩ <;>
          simp only [Prod.mk.injEq, RotateResult.ok.injEq] at h
        · exact h.1.2.1.symm
        · exact h.1.1.symm
        · exact h.1.2.2.symm
        · intro x hx hxt
          have := List.any_eq_false.mp hany x hx
          simp [hxt] at this
        · exact h.2.symm.trans (by rw [hfail'])
      · simp [validate_and_rotate_token, hfail', hfind, create_refresh_token, hany] at h

/-- C1: once `validate_and_rotate_token` succeeds on a token T and returns
a fresh token, T is distinct from the new token, and a second presentation
of T is rejected with the generic invalid-or-expired result and leaves the
store unchanged — of two sequential presentations of T exactly the first
succeeds.  (The `Nodup` hypotheses state the store's `_id` and unique-token
index invariants.) -/
theorem rotation_single_use (db : DB)
    (hoid : (db.refresh_tokens.map TokenRecord.oid).Nodup)
    (htok : (db.refresh_tokens.map TokenRecord.token).Nodup)
    (now1 now2 : Timestamp) (fresh1 fresh2 T : String) (req1 req2 : RequestInfo)
    (uid newTok : String) (si : SessionInfo) (db1 : DB)
    (h : validate_and_rotate_token now1 fresh1 T req1 db =
      (RotateResult.ok uid newTok si, db1)) :
    newTok ≠ T ∧
    validate_and_rotate_token now2 fresh2 T req2 db1 =
      (RotateResult.invalid "Invalid or expired token", db1) := by
  obtain ⟨hfail, hnt, td, hfind, huid, hsi, hfreshnew, hdb1⟩ :=
    rotate_success_spec db now1 fresh1 T uid newTok req1 si db1 h
  subst hnt
  have htd_mem : td ∈ db.refresh_tokens := List.mem_of_find?_eq_some hfind
  obtain ⟨htdT, htdact, _⟩ := (matchesActiveQuery_iff now1 T td).mp (List.find?_some hfind)
  have hpair : db.refresh_tokens.Pairwise
      (fun a b => ¬((a.oid == td.oid) = true ∧ (b.oid == td.oid) = true)) :=
    pairwise_not_both TokenRecord.oid td.oid _ (fun x hx => by simpa using hx)
      db.refresh_tokens hoid
  have hupd : (updateOne (fun r => r.oid == td.oid) (deactivateForRotation now1)
      db.refresh_tokens).1 =
      db.refresh_tokens.map
        (fun r => if r.oid == td.oid then deactivateForRotation now1 r else r) :=
    updateOne_fst_eq_map _ _ db.refresh_tokens hpair
  have htokpres : ∀ y : TokenRecord,
      ((if y.oid == td.oid then deactivateForRotation now1 y else y) : TokenRecord).token
        = y.token := by
    intro y
    cases hy : y.oid == td.oid <;> simp [hy, deactivateForRotation]
  have hneq : newTok ≠ T := by
    have hmem := List.mem_map_of_mem
      (fun r => if r.oid == td.oid then deactivateForRotation now1 r else r) htd_mem
    rw [← hupd] at hmem
    have := hfreshnew _ hmem
    simp only [htokpres td, htdT] at this
    exact fun he => this he.symm
  have hnone : findActiveRecord now2 T db1.refresh_tokens = none := by
    rw [hdb1, findActiveRecord, List.find?_eq_none]
    intro x hx hmatch
    obtain ⟨hxT, hxact, _⟩ := (matchesActiveQuery_iff now2 T x).mp hmatch
    rcases List.mem_append.mp hx with hx1 | hx2
    · rw [hupd] at hx1
      obtain ⟨y, hy, hgy⟩ := List.mem_map.mp hx1
      have hyT : y.token = T := by rw [← htokpres y, hgy, hxT]
      have hytd : y = td := List.inj_on_of_nodup_map htok hy htd_mem (by rw [hyT, htdT])
      subst hytd
      rw [← hgy] at hxact
      simp [deactivateForRotation] at hxact
    · simp only [List.mem_singleton] at hx2
      subst hx2
      exact hneq (by simpa [mkTokenRecord] using hxT)
  have hfail1 : db1.failing = false := by rw [hdb1]; exact hfail
  exact ⟨hneq, by simp [validate_and_rotate_token, hfail1, hnone]⟩

/-- Witness for C1: a concrete successful rotation followed by a rejected
replay of the old token. -/
theorem rotation_single_use_witness :
    (sampleDB.refresh_tokens.map TokenRecord.oid).Nodup ∧
    (sampleDB.refresh_tokens.map TokenRecord.token).Nodup ∧
    validate_and_rotate_token 10 "T2" "T1" sampleReq sampleDB =
      (RotateResult.ok "u1" "T2" sampleActiveRecord.session_info,
       { sampleDB with
           refresh_tokens :=
             [deactivateForRotation 10 sampleActiveRecord,
              mkTokenRecord 10 2 "T2" "u1" sampleReq]
           next_oid := 3 }) ∧
    ("T2" ≠ "T1" ∧
      validate_and_rotate_token 20 "T3" "T1" sampleReq
        { sampleDB with
            refresh_tokens :=
              [deactivateForRotation 10 sampleActiveRecord,
               mkTokenRecord 10 2 "T2" "u1" sampleReq]
            next_oid := 3 } =
        (RotateResult.invalid "Invalid or expired token",
         { sampleDB with
             refresh_tokens :=
               [deactivateForRotation 10 sampleActiveRecord,
                mkTokenRecord 10 2 "T2" "u1" sampleReq]
             next_oid := 3 })) := by
  refine ⟨by decide, by decide, by decide, ?_⟩
  exact rotation_single_use sampleDB (by decide) (by decide) 10 20 "T2" "T3" "T1"
    sampleReq sampleReq "u1" "T2" sampleActiveRecord.session_info _ (by decide)

/-- Deactivation genuinely changes an active record. -/
theorem deactivateForRevocation_ne (now : Timestamp) (reason : String)
    (r : TokenRecord) (hact : r.is_active = true) :
    deactivateForRevocation now reason r ≠ r := by
  intro he
  have h2 : (deactivateForRevocation now reason r).is_active = r.is_active := by rw [he]
  simp [deactivateForRevocation, hact] at h2

/-- C7: `revoke_all_user_tokens` deactivates exactly the user's active
records and returns their count; afterwards every record of the user is
inactive and every previously active token of the user fails validation
with the generic rejection, while records of other users are untouched. -/
theorem revoke_all_scope_and_frame (db : DB) (hfail : db.failing = false)
    (htok : (db.refresh_tokens.map TokenRecord.token).Nodup)
    (now : Timestamp) (U reason : String) :
    (revoke_all_user_tokens now U reason db).1 =
      db.refresh_tokens.countP (fun r => r.user_id == U && r.is_active) ∧
    (revoke_all_user_tokens now U reason db).2.refresh_tokens =
      db.refresh_tokens.map
        (fun r => if r.user_id == U && r.is_active
          then deactivateForRevocation now reason r else r) ∧
    (∀ r ∈ (revoke_all_user_tokens now U reason db).2.refresh_tokens,
        r.user_id = U → r.is_active = false) ∧
    (∀ r ∈ db.refresh_tokens, r.user_id ≠ U →
        r ∈ (revoke_all_user_tokens now U reason db).2.refresh_tokens) ∧
    (∀ r ∈ db.refresh_tokens, r.user_id = U →
        ∀ (now2 : Timestamp) (fresh : String) (req : RequestInfo),
        (validate_and_rotate_token now2 fresh r.token req
          (revoke_all_user_tokens now U reason db).2).1 =
        RotateResult.invalid "Invalid or expired token") := by
  have hres : revoke_all_user_tokens now U reason db =
      (db.refresh_tokens.countP
        (fun r => (r.user_id == U && r.is_active) &&
          !decide (deactivateForRevocation now reason r = r)),
       { db with
           refresh_tokens := db.refresh_tokens.map
             (fun r => if r.user_id == U && r.is_active
               then deactivateForRevocation now reason r else r) }) := by
    simp [revoke_all_user_tokens, hfail, updateMany]
  have hcount : (revoke_all_user_tokens now U reason db).1 =
      db.refresh_tokens.countP (fun r => r.user_id == U && r.is_active) := by
    rw [hres]
    refine List.countP_congr fun x _ => ⟨fun hpq => ?_, fun hp => ?_⟩
    · exact (Bool.and_eq_true _ _).mp hpq |>.1
    · have hact : x.is_active = true := ((Bool.and_eq_true _ _).mp hp).2
      simp [hp, deactivateForRevocation_ne now reason x hact]
  have hmap : (revoke_all_user_tokens now U reason db).2.refresh_tokens =
      db.refresh_tokens.map
        (fun r => if r.user_id == U && r.is_active
          then deactivateForRevocation now reason r else r) := by
    rw [hres]
  have hinactive : ∀ r ∈ (revoke_all_user_tokens now U reason db).2.refresh_tokens,
      r.user_id = U → r.is_active = false := by
    intro r hr hru
    rw [hmap] at hr
    obtain ⟨y, hy, hgy⟩ := List.mem_map.mp hr
    cases hp : (y.user_id == U && y.is_active)
    · rw [hp] at hgy
      simp only [if_false, Bool.false_eq_true] at hgy
      subst hgy
      rcases Bool.and_eq_false_iff.mp hp with h1 | h1
      · rw [hru] at h1; simp at h1
      · exact h1
    · rw [hp] at hgy
      simp only [if_true] at hgy
      subst hgy
      rfl
  refine ⟨hcount, hmap, hinactive, ?_, ?_⟩
  · intro r hr hne
    rw [hmap]
    have hid : (if r.user_id == U && r.is_active
        then deactivateForRevocation now reason r else r) = r := by
      have : (r.user_id == U) = false := by simpa using hne
      simp [this]
    rw [← hid]
    exact List.mem_map_of_mem _ hr
  · intro r hr hru now2 fresh req
    have hfail' : (revoke_all_user_tokens now U reason db).2.failing = false := by
      rw [hres]; exact hfail
    have hnone : findActiveRecord now2 r.token
        (revoke_all_user_tokens now U reason db).2.refresh_tokens = none := by
      rw [findActiveRecord, List.find?_eq_none]
      intro x hx hmatch
      obtain ⟨hxT, hxact, _⟩ := (matchesActiveQuery_iff now2 r.token x).mp hmatch
      have hxU : x.user_id = U := by
        rw [hmap] at hx
        obtain ⟨y, hy, hgy⟩ := List.mem_map.mp hx
        have hytok : y.token = x.token := by
          cases hp : (y.user_id == U && y.is_active)
          · rw [hp] at hgy
            simp only [if_false, Bool.false_eq_true] at hgy
            rw [← hgy]
          · rw [hp] at hgy
            simp only [if_true] at hgy
            rw [← hgy]
            simp [deactivateForRevocation]
        have hyr : y = r :=
          List.inj_on_of_nodup_map htok hy hr (by rw [hytok, hxT])
        subst hyr
        cases hp : (y.user_id == U && y.is_active) <;> rw [hp] at hgy <;>
          simp only [if_true, if_false, Bool.false_eq_true] at hgy <;> rw [← hgy]
        · exact hru
        · simpa [deactivateForRevocation] using hru
      exact absurd (hinactive x hx hxU) (by rw [hxact]; simp)
    simp [validate_and_rotate_token, hfail', hnone]

/-- An active record belonging to a second user. -/
def otherUserRecord : TokenRecord :=
  { sampleActiveRecord with oid := 2, token := "T9", user_id := "u2" }

/-- A healthy store holding active sessions for two users. -/
def twoUserDB : DB :=
  { refresh_tokens := [sampleActiveRecord, otherUserRecord]
    usuarios := [], reset_tokens := [], next_oid := 3, failing := false }

/-- Witness for C7 on a store with two users. -/
theorem revoke_all_scope_and_frame_witness :
    twoUserDB.failing = false ∧
    (twoUserDB.refresh_tokens.map TokenRecord.token).Nodup ∧
    ((revoke_all_user_tokens 50 "u1" "security_action" twoUserDB).1 =
      twoUserDB.refresh_tokens.countP (fun r => r.user_id == "u1" && r.is_active) ∧
    (revoke_all_user_tokens 50 "u1" "security_action" twoUserDB).2.refresh_tokens =
      twoUserDB.refresh_tokens.map
        (fun r => if r.user_id == "u1" && r.is_active
          then deactivateForRevocation 50 "security_action" r else r) ∧
    (∀ r ∈ (revoke_all_user_tokens 50 "u1" "security_action" twoUserDB).2.refresh_tokens,
        r.user_id = "u1" → r.is_active = false) ∧
    (∀ r ∈ twoUserDB.refresh_tokens, r.user_id ≠ "u1" →
        r ∈ (revoke_all_user_tokens 50 "u1" "security_action" twoUserDB).2.refresh_tokens) ∧
    (∀ r ∈ twoUserDB.refresh_tokens, r.user_id = "u1" →
        ∀ (now2 : Timestamp) (fresh : String) (req : RequestInfo),
        (validate_and_rotate_token now2 fresh r.token req
          (revoke_all_user_tokens 50 "u1" "security_action" twoUserDB).2).1 =
        RotateResult.invalid "Invalid or expired token")) :=
  ⟨rfl, by decide,
   revoke_all_scope_and_frame twoUserDB rfl (by decide) 50 "u1" "security_action"⟩

/-- C8: revoking an active token returns `True`; a second `revoke_token`
call on the same token returns `False` with the store unchanged (as does
any call on an unknown or already-inactive token — a boolean, not an
error), and the token never validates after the first call. -/
theorem revoke_idempotent (db : DB) (hfail : db.failing = false)
    (htok : (db.refresh_tokens.map TokenRecord.token).Nodup)
    (now1 now2 : Timestamp) (T reason1 reason2 : String)
    (r : TokenRecord) (hr : r ∈ db.refresh_tokens) (hT : r.token = T)
    (hact : r.is_active = true) :
    (revoke_token now1 T reason1 db).1 = true ∧
    revoke_token now2 T reason2 (revoke_token now1 T reason1 db).2 =
      (false, (revoke_token now1 T reason1 db).2) ∧
    (∀ (now3 : Timestamp) (fresh : String) (req : RequestInfo),
      (validate_and_rotate_token now3 fresh T req (revoke_token now1 T reason1 db).2).1 =
        RotateResult.invalid "Invalid or expired token") := by
  have hpr : (fun x : TokenRecord => x.token == T && x.is_active) r = true := by
    simp [hT, hact]
  have hpair : db.refresh_tokens.Pairwise
      (fun a b => ¬((a.token == T && a.is_active) = true ∧
        (b.token == T && b.is_active) = true)) :=
    pairwise_not_both TokenRecord.token T _
      (fun x hx => by simpa using ((Bool.and_eq_true _ _).mp hx).1)
      db.refresh_tokens htok
  have hpos : 0 < (updateOne (fun x : TokenRecord => x.token == T && x.is_active)
      (deactivateForRevocation now1 reason1) db.refresh_tokens).2 :=
    updateOne_snd_pos _ _ db.refresh_tokens r hr hpr
      (deactivateForRevocation_ne now1 reason1 r hact) hpair
  have h1 : revoke_token now1 T reason1 db =
      (true, { db with refresh_tokens :=
        (updateOne (fun x : TokenRecord => x.token == T && x.is_active)
          (deactivateForRevocation now1 reason1) db.refresh_tokens).1 }) := by
    simp [revoke_token, hfail, hpos]
  have hupd : (updateOne (fun x : TokenRecord => x.token == T && x.is_active)
      (deactivateForRevocation now1 reason1) db.refresh_tokens).1 =
      db.refresh_tokens.map
        (fun x => if x.token == T && x.is_active
          then deactivateForRevocation now1 reason1 x else x) :=
    updateOne_fst_eq_map _ _ db.refresh_tokens hpair
  have hallT : ∀ x ∈ (revoke_token now1 T reason1 db).2.refresh_tokens,
      x.token = T → x.is_active = false := by
    intro x hx hxT
    rw [h1] at hx
    simp only at hx
    rw [hupd] at hx
    obtain ⟨y, hy, hgy⟩ := List.mem_map.mp hx
    cases hp : (y.token == T && y.is_active)
    · rw [hp] at hgy
      simp only [if_false, Bool.false_eq_true] at hgy
      subst hgy
      rcases Bool.and_eq_false_iff.mp hp with h2 | h2
      · rw [hxT] at h2; simp at h2
      · exact h2
    · rw [hp] at hgy
      simp only [if_true] at hgy
      subst hgy
      rfl
  have hnomatch : ∀ x ∈ (revoke_token now1 T reason1 db).2.refresh_tokens,
      (fun x : TokenRecord => x.token == T && x.is_active) x = false := by
    intro x hx
    cases hxT : (x.token == T)
    · simp [hxT]
    · simp [hxT, hallT x hx (by simpa using hxT)]
  have hfail1 : (revoke_token now1 T reason1 db).2.failing = false := by
    rw [h1]; exact hfail
  have h2 : revoke_token now2 T reason2 (revoke_token now1 T reason1 db).2 =
      (false, (revoke_token now1 T reason1 db).2) := by
    have hnm := updateOne_nomatch
      (fun x : TokenRecord => x.token == T && x.is_active)
      (deactivateForRevocation now2 reason2)
      (revoke_token now1 T reason1 db).2.refresh_tokens hnomatch
    generalize hgen : (revoke_token now1 T reason1 db).2 = dbA at hfail1 hnm ⊢
    simp [revoke_token, hfail1, hnm]
    rw [← hfail1]
  refine ⟨by rw [h1], h2, ?_⟩
  intro now3 fresh req
  have hnone : findActiveRecord now3 T
      (revoke_token now1 T reason1 db).2.refresh_tokens = none := by
    rw [findActiveRecord, List.find?_eq_none]
    intro x hx hmatch
    obtain ⟨hxT, hxact, _⟩ := (matchesActiveQuery_iff now3 T x).mp hmatch
    exact absurd (hallT x hx hxT) (by rw [hxact]; simp)
  simp [validate_and_rotate_token, hfail1, hnone]

/-- Witness for C8: revoke the sample active token twice. -/
theorem revoke_idempotent_witness :
    sampleDB.failing = false ∧
    (sampleDB.refresh_tokens.map TokenRecord.token).Nodup ∧
    sampleActiveRecord ∈ sampleDB.refresh_tokens ∧
    sampleActiveRecord.token = "T1" ∧
    sampleActiveRecord.is_active = true ∧
    ((revoke_token 10 "T1" "user_logout" sampleDB).1 = true ∧
    revoke_token 20 "T1" "user_logout" (revoke_token 10 "T1" "user_logout" sampleDB).2 =
      (false, (revoke_token 10 "T1" "user_logout" sampleDB).2) ∧
    (∀ (now3 : Timestamp) (fresh : String) (req : RequestInfo),
      (validate_and_rotate_token now3 fresh "T1" req
        (revoke_token 10 "T1" "user_logout" sampleDB).2).1 =
        RotateResult.invalid "Invalid or expired token")) :=
  ⟨rfl, by decide, by decide, rfl, rfl,
   revoke_idempotent sampleDB rfl (by decide) 10 20 "T1" "user_logout" "user_logout"
     sampleActiveRecord (by decide) rfl rfl⟩

/-- Counterexample to C10 as stated: a successful rotation (time 10,
presenting IP 2.2.2.2) leaves the matched record's `usage_count`,
`last_used` and `last_ip` exactly as they were at creation (0, 5,
1.1.1.1) — the update only deactivates and stamps rotation metadata, so no
usage metadata changes to record the presenting request. -/
theorem rotation_usage_metadata_counterexample :
    (validate_and_rotate_token 10 "T2" "T1" sampleReq sampleDB).1 =
      RotateResult.ok "u1" "T2" sampleActiveRecord.session_info ∧
    (validate_and_rotate_token 10 "T2" "T1" sampleReq sampleDB).2.refresh_tokens.find?
        (fun x => x.token == "T1") =
      some (deactivateForRotation 10 sampleActiveRecord) ∧
    (deactivateForRotation 10 sampleActiveRecord).usage_count = 0 ∧
    (deactivateForRotation 10 sampleActiveRecord).last_used = 5 ∧
    (deactivateForRotation 10 sampleActiveRecord).last_ip = some "1.1.1.1" ∧
    sampleReq.ip_address = some "2.2.2.2" ∧
    sampleActiveRecord.usage_count = 0 ∧
    sampleActiveRecord.last_used = 5 ∧
    sampleActiveRecord.last_ip = some "1.1.1.1" := by
  decide

/-- C10 (amended): a successful `validate_and_rotate_token` changes the
matched record only by deactivating it and stamping `rotated_at` /
`rotation_reason`; its `usage_count`, `last_ip` and `last_used` keep their
creation-time values (they are set on creation and never updated), while
the presenting request's data goes into the brand-new record, whose
`last_ip` is the request IP, `usage_count` 0 and `last_used` the call
time. -/
theorem rotation_usage_metadata_amended (db : DB)
    (hoid : (db.refresh_tokens.map TokenRecord.oid).Nodup)
    (htok : (db.refresh_tokens.map TokenRecord.token).Nodup)
    (now : Timestamp) (fresh T uid ntok : String) (req : RequestInfo)
    (si : SessionInfo) (db1 : DB)
    (h : validate_and_rotate_token now fresh T req db =
      (RotateResult.ok uid ntok si, db1)) :
    ∃ td ∈ db.refresh_tokens,
      matchesActiveQuery now T td = true ∧
      db1.refresh_tokens.find? (fun x => x.token == T) =
        some (deactivateForRotation now td) ∧
      (deactivateForRotation now td).usage_count = td.usage_count ∧
      (deactivateForRotation now td).last_ip = td.last_ip ∧
      (deactivateForRotation now td).last_used = td.last_used ∧
      db1.refresh_tokens.find? (fun x => x.token == ntok) =
        some (mkTokenRecord now db.next_oid ntok td.user_id req) ∧
      (mkTokenRecord now db.next_oid ntok td.user_id req).last_ip = req.ip_address ∧
      (mkTokenRecord now db.next_oid ntok td.user_id req).usage_count = 0 ∧
      (mkTokenRecord now db.next_oid ntok td.user_id req).last_used = now := by
  obtain ⟨hfail, hnt, td, hfind, huid, hsi, hfreshnew, hdb1⟩ :=
    rotate_success_spec db now fresh T uid ntok req si db1 h
  subst hnt
  have htd_mem : td ∈ db.refresh_tokens := List.mem_of_find?_eq_some hfind
  obtain ⟨htdT, htdact, _⟩ :=
    (matchesActiveQuery_iff now T td).mp (List.find?_some hfind)
  have hpair : db.refresh_tokens.Pairwise
      (fun a b => ¬((a.oid == td.oid) = true ∧ (b.oid == td.oid) = true)) :=
    pairwise_not_both TokenRecord.oid td.oid _ (fun x hx => by simpa using hx)
      db.refresh_tokens hoid
  have hupd : (updateOne (fun r => r.oid == td.oid) (deactivateForRotation now)
      db.refresh_tokens).1 =
      db.refresh_tokens.map
        (fun r => if r.oid == td.oid then deactivateForRotation now r else r) :=
    updateOne_fst_eq_map _ _ db.refresh_tokens hpair
  have htokpres : ∀ y : TokenRecord,
      ((if y.oid == td.oid then deactivateForRotation now y else y) : TokenRecord).token
        = y.token := by
    intro y
    cases hy : y.oid == td.oid <;> simp [hy, deactivateForRotation]
  have hgtd : (if td.oid == td.oid then deactivateForRotation now td else td)
      = deactivateForRotation now td := by simp
  have hmemtd : deactivateForRotation now td ∈
      (updateOne (fun r => r.oid == td.oid) (deactivateForRotation now)
        db.refresh_tokens).1 := by
    rw [hupd, ← hgtd]
    exact List.mem_map_of_mem _ htd_mem
  have hneq : ntok ≠ T := by
    have := hfreshnew _ hmemtd
    simp only [deactivateForRotation, htdT] at this
    exact fun he => this he.symm
  refine ⟨td, htd_mem, (matchesActiveQuery_iff now T td).mpr ⟨htdT, htdact, by assumption⟩,
    ?_, rfl, rfl, rfl, ?_, rfl, rfl, rfl⟩
  · rw [hdb1]
    refine find?_eq_of_mem_unique _ _ _
      (List.mem_append.mpr (Or.inl hmemtd))
      (by simp [deactivateForRotation, htdT]) ?_
    intro x hx hpx
    have hxT : x.token = T := by simpa using hpx
    rcases List.mem_append.mp hx with hx1 | hx2
    · rw [hupd] at hx1
      obtain ⟨y, hy, hgy⟩ := List.mem_map.mp hx1
      have hyT : y.token = T := by rw [← htokpres y, hgy, hxT]
      have hytd : y = td := List.inj_on_of_nodup_map htok hy htd_mem (by rw [hyT, htdT])
      subst hytd
      rw [← hgy, hgtd]
    · simp only [List.mem_singleton] at hx2
      subst hx2
      exact absurd (by simpa [mkTokenRecord] using hxT) hneq
  · rw [hdb1]
    refine find?_eq_of_mem_unique _ _ _
      (List.mem_append.mpr (Or.inr (List.mem_singleton.mpr rfl)))
      (by simp [mkTokenRecord]) ?_
    intro x hx hpx
    have hxN : x.token = ntok := by simpa using hpx
    rcases List.mem_append.mp hx with hx1 | hx2
    · exact absurd hxN (hfreshnew x hx1)
    · simpa using hx2

/-- Witness for C10's amended theorem: the concrete sample rotation. -/
theorem rotation_usage_metadata_amended_witness :
    (sampleDB.refresh_tokens.map TokenRecord.oid).Nodup ∧
    (sampleDB.refresh_tokens.map TokenRecord.token).Nodup ∧
    validate_and_rotate_token 10 "T2" "T1" sampleReq sampleDB =
      (RotateResult.ok "u1" "T2" sampleActiveRecord.session_info,
       { sampleDB with
           refresh_tokens :=
             [deactivateForRotation 10 sampleActiveRecord,
              mkTokenRecord 10 2 "T2" "u1" sampleReq]
           next_oid := 3 }) ∧
    (∃ td ∈ sampleDB.refresh_tokens,
      matchesActiveQuery 10 "T1" td = true ∧
      ({ sampleDB with
           refresh_tokens :=
             [deactivateForRotation 10 sampleActiveRecord,
              mkTokenRecord 10 2 "T2" "u1" sampleReq]
           next_oid := 3 } : DB).refresh_tokens.find? (fun x => x.token == "T1") =
        some (deactivateForRotation 10 td) ∧
      (deactivateForRotation 10 td).usage_count = td.usage_count ∧
      (deactivateForRotation 10 td).last_ip = td.last_ip ∧
      (deactivateForRotation 10 td).last_used = td.last_used ∧
      ({ sampleDB with
           refresh_tokens :=
             [deactivateForRotation 10 sampleActiveRecord,
              mkTokenRecord 10 2 "T2" "u1" sampleReq]
           next_oid := 3 } : DB).refresh_tokens.find? (fun x => x.token == "T2") =
        some (mkTokenRecord 10 sampleDB.next_oid "T2" td.user_id sampleReq) ∧
      (mkTokenRecord 10 sampleDB.next_oid "T2" td.user_id sampleReq).last_ip =
        sampleReq.ip_address ∧
      (mkTokenRecord 10 sampleDB.next_oid "T2" td.user_id sampleReq).usage_count = 0 ∧
      (mkTokenRecord 10 sampleDB.next_oid "T2" td.user_id sampleReq).last_used = 10) :=
  ⟨by decide, by decide, by decide,
   rotation_usage_metadata_amended sampleDB (by decide) (by decide) 10 "T2" "T1"
     "u1" "T2" sampleReq sampleActiveRecord.session_info _ (by decide)⟩

/-- `revoke_all_user_tokens` touches only the refresh-token collection. -/
theorem revoke_all_user_tokens_frame (now : Timestamp) (uid reason : String)
    (db : DB) :
    (revoke_all_user_tokens now uid reason db).2.usuarios = db.usuarios ∧
    (revoke_all_user_tokens now uid reason db).2.reset_tokens = db.reset_tokens ∧
    (revoke_all_user_tokens now uid reason db).2.failing = db.failing := by
  by_cases h : db.failing = true <;> simp [revoke_all_user_tokens, h]

/-- After `revoke_all_user_tokens` on a healthy store, every record of the
user is inactive. -/
theorem revoke_all_user_tokens_inactive (now : Timestamp) (uid reason : String)
    (db : DB) (hfail : db.failing = false) :
    ∀ r ∈ (revoke_all_user_tokens now uid reason db).2.refresh_tokens,
      r.user_id = uid → r.is_active = false := by
  intro r hr hru
  simp only [revoke_all_user_tokens, hfail, Bool.false_eq_true, if_false,
    updateMany] at hr
  obtain ⟨y, hy, hgy⟩ := List.mem_map.mp hr
  cases hp : (y.user_id == uid && y.is_active)
  · simp only [hp, Bool.false_eq_true, if_false] at hgy
    subst hgy
    rcases Bool.and_eq_false_iff.mp hp with h1 | h1
    · rw [hru] at h1; simp at h1
    · exact h1
  · simp only [hp, if_true] at hgy
    subst hgy
    rfl

/-- C6: redeeming a valid reset token (unused, unexpired, for an existing
user, with the token manager wired in as the route does) succeeds, stores
the new password hash on the user, marks the token used, and deactivates
every refresh token of the user; a second redemption of the same token is
rejected as invalid-or-expired.  (The `Nodup` hypotheses are the `_id`
uniqueness of the collections and token-value uniqueness; `hch` reflects
that bcrypt with a fresh salt produces a new hash.) -/
theorem reset_token_single_use (db : DB) (hfail : db.failing = false)
    (hrtok : (db.reset_tokens.map ResetTokenRecord.token).Nodup)
    (hroid : (db.reset_tokens.map ResetTokenRecord.oid).Nodup)
    (huoid : (db.usuarios.map UserRecord.oid).Nodup)
    (now now2 : Timestamp) (T newHash newHash2 : String)
    (rd : ResetTokenRecord) (hrd : rd ∈ db.reset_tokens) (hT : rd.token = T)
    (hused : rd.used = false) (hexp : now < rd.expires_at)
    (u : UserRecord) (hu : u ∈ db.usuarios) (huid : u.oid = rd.user_id)
    (hch : u.password ≠ newHash) :
    (reset_password now newHash T true db).1 =
      { success := true, message := "Password reset successful" } ∧
    (∀ u' ∈ (reset_password now newHash T true db).2.usuarios,
        u'.oid = rd.user_id → u'.password = newHash) ∧
    (∀ t ∈ (reset_password now newHash T true db).2.reset_tokens,
        t.token = T → t.used = true) ∧
    (∀ r ∈ (reset_password now newHash T true db).2.refresh_tokens,
        r.user_id = toString rd.user_id → r.is_active = false) ∧
    (reset_password now2 newHash2 T true (reset_password now newHash T true db).2).1 =
      { success := false, message := "Invalid or expired reset token" } := by
  have hfind : db.reset_tokens.find?
      (fun t => t.token == T && !t.used && decide (now < t.expires_at)) = some rd := by
    refine find?_eq_of_mem_unique _ rd _ hrd (by simp [hT, hused, hexp]) ?_
    intro x hx hpx
    have hxT : x.token = T := by
      simp only [Bool.and_eq_true, beq_iff_eq] at hpx
      exact hpx.1.1
    exact List.inj_on_of_nodup_map hrtok hx hrd (by rw [hxT, hT])
  have hpairu : db.usuarios.Pairwise
      (fun a b => ¬((a.oid == rd.user_id) = true ∧ (b.oid == rd.user_id) = true)) :=
    pairwise_not_both UserRecord.oid rd.user_id _ (fun x hx => by simpa using hx)
      db.usuarios huoid
  have hpairt : db.reset_tokens.Pairwise
      (fun a b => ¬((a.oid == rd.oid) = true ∧ (b.oid == rd.oid) = true)) :=
    pairwise_not_both ResetTokenRecord.oid rd.oid _ (fun x hx => by simpa using hx)
      db.reset_tokens hroid
  have hfu : ({ u with password := newHash, updated_at := some now } : UserRecord) ≠ u := by
    intro he
    have h2 : ({ u with password := newHash, updated_at := some now } : UserRecord).password
        = u.password := by rw [he]
    exact hch (by simpa using h2.symm)
  have hm : 0 < (updateOne (fun x : UserRecord => x.oid == rd.user_id)
      (fun x => { x with password := newHash, updated_at := some now })
      db.usuarios).2 :=
    updateOne_snd_pos _ _ db.usuarios u hu (by simp [huid]) hfu hpairu
  have husers : ∀ u' ∈ (updateOne (fun x : UserRecord => x.oid == rd.user_id)
      (fun x => { x with password := newHash, updated_at := some now })
      db.usuarios).1, u'.oid = rd.user_id → u'.password = newHash := by
    intro u' hu' hoid'
    rw [updateOne_fst_eq_map _ _ _ hpairu] at hu'
    obtain ⟨y, hy, hgy⟩ := List.mem_map.mp hu'
    cases hp : (y.oid == rd.user_id)
    · simp only [hp, Bool.false_eq_true, if_false] at hgy
      subst hgy
      rw [hoid'] at hp
      simp at hp
    · simp only [hp, if_true] at hgy
      subst hgy
      rfl
  have hused3 : ∀ t ∈ (updateOne (fun t : ResetTokenRecord => t.oid == rd.oid)
      (fun t => { t with used := true, used_at := some now })
      db.reset_tokens).1, t.token = T → t.used = true := by
    intro t ht htT
    rw [updateOne_fst_eq_map _ _ _ hpairt] at ht
    obtain ⟨y, hy, hgy⟩ := List.mem_map.mp ht
    cases hp : (y.oid == rd.oid)
    · simp only [hp, Bool.false_eq_true, if_false] at hgy
      subst hgy
      have hyrd : y = rd := List.inj_on_of_nodup_map hrtok hy hrd (by rw [htT, hT])
      rw [hyrd] at hp
      simp at hp
    · simp only [hp, if_true] at hgy
      subst hgy
      rfl
  have hrun : reset_password now newHash T true db =
      ({ success := true, message := "Password reset successful" },
       (revoke_all_user_tokens now (toString rd.user_id) "password_reset"
         { db with
             usuarios := (updateOne (fun x : UserRecord => x.oid == rd.user_id)
               (fun x => { x with password := newHash, updated_at := some now })
               db.usuarios).1
             reset_tokens := (updateOne (fun t : ResetTokenRecord => t.oid == rd.oid)
               (fun t => { t with used := true, used_at := some now })
               db.reset_tokens).1 }).2) := by
    simp [reset_password, hfail, hfind, hm]
  have hframe := revoke_all_user_tokens_frame now (toString rd.user_id) "password_reset"
    { db with
        usuarios := (updateOne (fun x : UserRecord => x.oid == rd.user_id)
          (fun x => { x with password := newHash, updated_at := some now })
          db.usuarios).1
        reset_tokens := (updateOne (fun t : ResetTokenRecord => t.oid == rd.oid)
          (fun t => { t with used := true, used_at := some now })
          db.reset_tokens).1 }
  refine ⟨by rw [hrun], ?_, ?_, ?_, ?_⟩
  · intro u' hu' hoid'
    rw [hrun] at hu'
    simp only at hu'
    rw [hframe.1] at hu'
    exact husers u' hu' hoid'
  · intro t ht htT
    rw [hrun] at ht
    simp only at ht
    rw [hframe.2.1] at ht
    exact hused3 t ht htT
  · intro r hr hru
    rw [hrun] at hr
    simp only at hr
    exact revoke_all_user_tokens_inactive now (toString rd.user_id) "password_reset"
      { db with
          usuarios := (updateOne (fun x : UserRecord => x.oid == rd.user_id)
            (fun x => { x with password := newHash, updated_at := some now })
            db.usuarios).1
          reset_tokens := (updateOne (fun t : ResetTokenRecord => t.oid == rd.oid)
            (fun t => { t with used := true, used_at := some now })
            db.reset_tokens).1 } hfail r hr hru
  · rw [hrun]
    simp only
    have hfail2 : (revoke_all_user_tokens now (toString rd.user_id) "password_reset"
        { db with
            usuarios := (updateOne (fun x : UserRecord => x.oid == rd.user_id)
              (fun x => { x with password := newHash, updated_at := some now })
              db.usuarios).1
            reset_tokens := (updateOne (fun t : ResetTokenRecord => t.oid == rd.oid)
              (fun t => { t with used := true, used_at := some now })
              db.reset_tokens).1 }).2.failing = false := by
      rw [hframe.2.2]
      exact hfail
    have hfind2 : (revoke_all_user_tokens now (toString rd.user_id) "password_reset"
        { db with
            usuarios := (updateOne (fun x : UserRecord => x.oid == rd.user_id)
              (fun x => { x with password := newHash, updated_at := some now })
              db.usuarios).1
            reset_tokens := (updateOne (fun t : ResetTokenRecord => t.oid == rd.oid)
              (fun t => { t with used := true, used_at := some now })
              db.reset_tokens).1 }).2.reset_tokens.find?
        (fun t => t.token == T && !t.used && decide (now2 < t.expires_at)) = none := by
      rw [hframe.2.1, List.find?_eq_none]
      intro x hx hpx
      simp only [Bool.and_eq_true, beq_iff_eq, Bool.not_eq_true'] at hpx
      exact absurd (hused3 x hx hpx.1.1) (by rw [hpx.1.2]; simp)
    generalize hgen : (revoke_all_user_tokens now (toString rd.user_id) "password_reset"
        { db with
            usuarios := (updateOne (fun x : UserRecord => x.oid == rd.user_id)
              (fun x => { x with password := newHash, updated_at := some now })
              db.usuarios).1
            reset_tokens := (updateOne (fun t : ResetTokenRecord => t.oid == rd.oid)
              (fun t => { t with used := true, used_at := some now })
              db.reset_tokens).1 }).2 = dbB at hfail2 hfind2 ⊢
    simp [reset_password, hfail2, hfind2]

/-- An unused, unexpired reset token for `resetUser`. -/
def sampleResetToken : ResetTokenRecord :=
  { oid := 20, user_id := 7, email := "a@b.c", token := "RT1",
    expires_at := 3600, used := false, created_at := 0 }

/-- An active refresh-token session belonging to `resetUser`
(whose string user id is `"7"`). -/
def resetUserSession : TokenRecord :=
  { sampleActiveRecord with oid := 30, token := "S1", user_id := "7" }

/-- A healthy store with the user, their reset token and one session. -/
def resetDB : DB :=
  { refresh_tokens := [resetUserSession]
    usuarios := [resetUser]
    reset_tokens := [sampleResetToken]
    next_oid := 31
    failing := false }

/-- Witness for C6: the concrete redemption at time 100, replayed at 200. -/
theorem reset_token_single_use_witness :
    resetDB.failing = false ∧
    (resetDB.reset_tokens.map ResetTokenRecord.token).Nodup ∧
    (resetDB.reset_tokens.map ResetTokenRecord.oid).Nodup ∧
    (resetDB.usuarios.map UserRecord.oid).Nodup ∧
    sampleResetToken ∈ resetDB.reset_tokens ∧
    sampleResetToken.token = "RT1" ∧
    sampleResetToken.used = false ∧
    ((100 : Timestamp) < sampleResetToken.expires_at) ∧
    resetUser ∈ resetDB.usuarios ∧
    resetUser.oid = sampleResetToken.user_id ∧
    resetUser.password ≠ "H1" ∧
    ((reset_password 100 "H1" "RT1" true resetDB).1 =
      { success := true, message := "Password reset successful" } ∧
    (∀ u' ∈ (reset_password 100 "H1" "RT1" true resetDB).2.usuarios,
        u'.oid = sampleResetToken.user_id → u'.password = "H1") ∧
    (∀ t ∈ (reset_password 100 "H1" "RT1" true resetDB).2.reset_tokens,
        t.token = "RT1" → t.used = true) ∧
    (∀ r ∈ (reset_password 100 "H1" "RT1" true resetDB).2.refresh_tokens,
        r.user_id = toString sampleResetToken.user_id → r.is_active = false) ∧
    (reset_password 200 "H2" "RT1" true (reset_password 100 "H1" "RT1" true resetDB).2).1 =
      { success := false, message := "Invalid or expired reset token" }) :=
  ⟨rfl, by decide, by decide, by decide, by decide, rfl, rfl, by decide, by decide,
   rfl, by decide,
   reset_token_single_use resetDB rfl (by decide) (by decide) (by decide)
     100 200 "RT1" "H1" "H2" sampleResetToken (by decide) rfl rfl (by decide)
     resetUser (by decide) rfl (by decide)⟩
